import Mathlib

/-!
Shallow embedding of `src/app.py` (a LINE webhook bot that scrapes event
listings from walkerplus.com) together with proofs about the claims of the
specification.  HTML documents are modelled as a tree of nodes, the
BeautifulSoup operations (`find`, `find_all`, `get_text`, attribute `get`)
as recursive functions on that tree, Python truthiness of optional strings
explicitly, and the outbound HTTP call of `scrape_walkerplus` as an
explicit outcome parameter (network failure, or a final response with a
status code and a parsed body).
-/

namespace App

/-- An HTML node: an element with a tag name, attributes (name/value pairs) and
children, or a text node.  This models the parsed BeautifulSoup tree traversed
by `scrape_walkerplus` in src/app.py. -/
inductive Node where
  | elem (tag : String) (attrs : List (String × String)) (children : List Node)
  | text (s : String)

mutual

/-- All strict descendants of a node in document (pre-)order, as BeautifulSoup
enumerates them for `find` and `find_all`. -/
def nodeDescendants : Node → List Node
  | .text _ => []
  | .elem _ _ cs => listDescendants cs
termination_by structural n => n

/-- Pre-order traversal of a list of sibling subtrees: each node followed by
its own descendants. -/
def listDescendants : List Node → List Node
  | [] => []
  | c :: cs => c :: (nodeDescendants c ++ listDescendants cs)
termination_by structural l => l

end

mutual

/-- The strings of all text nodes below a node, in document order (the pieces
BeautifulSoup's `get_text` concatenates). -/
def textPieces : Node → List String
  | .text s => [s]
  | .elem _ _ cs => listTextPieces cs
termination_by structural n => n

/-- Text pieces of a list of sibling subtrees, in document order. -/
def listTextPieces : List Node → List String
  | [] => []
  | c :: cs => textPieces c ++ listTextPieces cs
termination_by structural l => l

end

/-- Python's `str.strip()` on the underlying character list: drop leading and
trailing whitespace. -/
def stripChars (l : List Char) : List Char :=
  (((l.dropWhile Char.isWhitespace).reverse).dropWhile Char.isWhitespace).reverse

/-- Python's `str.strip()`. -/
def pyStrip (s : String) : String := ⟨stripChars s.data⟩

/-- Python's `str.startswith(pre)`. -/
def pyStartsWith (s pre : String) : Bool := pre.data.isPrefixOf s.data

/-- Splitting a character list at every space, as `str.split(" ")` /
`String.splitOn " "` do for the `class` attribute value. -/
def splitOnSpace : List Char → List Char → List String
  | [], acc => [⟨acc.reverse⟩]
  | c :: rest, acc =>
    if c = ' ' then (⟨acc.reverse⟩ : String) :: splitOnSpace rest []
    else splitOnSpace rest (c :: acc)

/-- The CSS classes of a `class` attribute value: the value split on spaces. -/
def classList (s : String) : List String := splitOnSpace s.data []

/-- BeautifulSoup's `get_text(strip=True)`: every contained string stripped of
surrounding whitespace and concatenated. -/
def getTextStrip (n : Node) : String :=
  String.join ((textPieces n).map pyStrip)

/-- BeautifulSoup's `Tag.get(name)`: the attribute's value, or `none` (Python
`None`) when the attribute is absent. -/
def getAttr (a : String) : Node → Option String
  | .elem _ attrs _ => (attrs.find? (fun p => p.1 == a)).map (fun p => p.2)
  | .text _ => none

/-- Whether a node is an element with the given tag name. -/
def tagIs (name : String) : Node → Bool
  | .elem t _ _ => t == name
  | .text _ => false

/-- Whether an element's `class` attribute contains the given CSS class
(BeautifulSoup's `class_=` keyword filter). -/
def hasCssClass (c : String) (n : Node) : Bool :=
  match getAttr "class" n with
  | some s => (classList s).contains c
  | none => false

/-- BeautifulSoup's `element.find(name)`: the first descendant element with the
given tag name, in document order. -/
def findTag (name : String) (n : Node) : Option Node :=
  (nodeDescendants n).find? (tagIs name)

/-- BeautifulSoup's `soup.find_all(name, class_=cls)`: all descendant elements
with the given tag name whose class list contains `cls`, in document order. -/
def find_all (name cls : String) (root : Node) : List Node :=
  (nodeDescendants root).filter (fun d => tagIs name d && hasCssClass cls d)

/-- Python truthiness of a `str | None` value: `None` and the empty string are
falsy, every other string is truthy. -/
def pyTruthy : Option String → Bool
  | none => false
  | some s => !(s == "")

/-- Python truthiness of a plain `str`: truthy exactly when non-empty. -/
def pyTruthyStr (s : String) : Bool := !(s == "")

/-- Python's `a or b` on `str | None` values: `a` when truthy, else `b`. -/
def pyOrStr (a b : Option String) : Option String :=
  if pyTruthy a then a else b

/-- Python's `a or b` on optional BeautifulSoup tags: a found tag is truthy, a
`find` miss (`None`) is falsy. -/
def pyOrElem : Option Node → Option Node → Option Node
  | some x, _ => some x
  | none, b => b

/-- Python's `a or b` on lists: an empty `find_all` result is falsy. -/
def pyOrList (a b : List Node) : List Node :=
  if a.isEmpty then b else a

/-- One scraped event, the dictionary appended in src/app.py line 124.  The
`title` is always a `str`; `image_url` and `link_url` hold whatever Python
value the extraction left in the local variable (`str` or `None`). -/
structure EventRecord where
  title : String
  image_url : Option String
  link_url : Option String
deriving Repr, DecidableEq

/-- Lines 111-112 and 119-120 of src/app.py: a truthy URL that does not start
with "http" is prefixed with the site's domain; anything else is unchanged. -/
def absolutize (u : Option String) : Option String :=
  match u with
  | none => none
  | some s =>
    if pyTruthyStr s && !(pyStartsWith s "http")
    then some ("https://www.walkerplus.com" ++ s)
    else some s

/-- Lines 101-102 of src/app.py: the title element is the first of
`find("h3")`, `find("h2")`, `find(".event-title")` (the last looks for a tag
literally named ".event-title"). -/
def titleElementOf (e : Node) : Option Node :=
  pyOrElem (findTag "h3" e) (pyOrElem (findTag "h2" e) (findTag ".event-title" e))

/-- Line 104 of src/app.py: stripped text of the title element, or the default
"タイトル不明" ("unknown title") when no title element was found. -/
def titleOf (e : Node) : String :=
  match titleElementOf e with
  | some t => getTextStrip t
  | none => "タイトル不明"

/-- Lines 107-112 of src/app.py: `image_url` starts as `""`; when an `img` tag
exists it becomes `get("src") or get("data-src")` (possibly `None`), and a
truthy relative value is prefixed with the domain. -/
def imageUrlOf (e : Node) : Option String :=
  match findTag "img" e with
  | none => some ""
  | some img => absolutize (pyOrStr (getAttr "src" img) (getAttr "data-src" img))

/-- Lines 115-120 of src/app.py: `link_url` starts as `""`; when an `a` tag
exists it becomes `get("href")` (possibly `None`), and a truthy relative value
is prefixed with the domain. -/
def linkUrlOf (e : Node) : Option String :=
  match findTag "a" e with
  | none => some ""
  | some a => absolutize (getAttr "href" a)

/-- Lines 99-124 of src/app.py: the record built from one candidate element,
appended only when `title and link_url` is truthy. -/
def processElement (e : Node) : Option EventRecord :=
  if pyTruthyStr (titleOf e) && pyTruthy (linkUrlOf e)
  then some ⟨titleOf e, imageUrlOf e, linkUrlOf e⟩
  else none

/-- Lines 92-96 of src/app.py: the three selector strategies tried in order
with Python `or`; the first non-empty `find_all` result wins. -/
def selectEventElements (doc : Node) : List Node :=
  pyOrList (find_all "div" "event-item" doc)
    (pyOrList (find_all "li" "event-list-item" doc)
      (find_all "article" "event" doc))

/-- The accumulation loop of lines 98-129 of src/app.py: `events` starts empty
and each element's record (when kept) is appended in order. -/
def extractLoop : List Node → List EventRecord → List EventRecord
  | [], events => events
  | e :: rest, events =>
    match processElement e with
    | some r => extractLoop rest (events ++ [r])
    | none => extractLoop rest events

/-- Lines 87-131 of src/app.py: run the extraction loop over at most the first
5 selected elements. -/
def extractEvents (doc : Node) : List EventRecord :=
  extractLoop ((selectEventElements doc).take 5) []

/-- The observable outcome of `requests.get` at line 80 of src/app.py: either
a `requests.RequestException` (network failure, timeout, too many redirects),
or a final HTTP response with a status code and a parsed HTML body. -/
inductive FetchOutcome where
  | requestFailure
  | response (status : Nat) (doc : Node)

/-- The `requests` library's `response.raise_for_status()` (line 81 of
src/app.py) raises `HTTPError` exactly for 4xx and 5xx status codes. -/
def raiseForStatusRaises (status : Nat) : Bool :=
  decide (400 ≤ status) && decide (status < 600)

/-- Line 58 of src/app.py: the date query parameter, "YYYY-MM-DD" with the
dashes removed (`date_str.replace("-", "")`). -/
def dateFormatted (date_str : String) : String :=
  ⟨date_str.data.filter (fun c => !(c = '-'))⟩

/-- `scrape_walkerplus` of src/app.py (lines 35-138): any caught exception
(network failure or `raise_for_status`) returns `[]`; otherwise the parsed
body is scanned for event records.  The latitude, longitude and date only
parameterize the outbound request, which is modelled by `outcome`. -/
def scrape_walkerplus (lat lng : Int) (date_str : String)
    (outcome : FetchOutcome) : List EventRecord :=
  match outcome with
  | .requestFailure => []
  | .response status doc =>
    if raiseForStatusRaises status then [] else extractEvents doc

/-- The in-memory `user_sessions` dictionary of src/app.py line 32: a finite
map from user id to the selected date string, modelled as a function. -/
def Sessions : Type := String → Option String

/-- Dictionary assignment `user_sessions[user_id] = date` (line 202):
overwrites any previous value for that key, leaves other keys unchanged. -/
def setSession (s : Sessions) (u d : String) : Sessions :=
  fun v => if v = u then some d else s v

/-- Dictionary deletion `del user_sessions[user_id]` (line 260). -/
def eraseSession (s : Sessions) (u : String) : Sessions :=
  fun v => if v = u then none else s v

/-- Python's `datetime.weekday()` for an abstract day index counted from a
Monday epoch: Monday = 0, ..., Friday = 4, Saturday = 5, Sunday = 6. -/
def pythonWeekday (day : Nat) : Nat := day % 7

/-- Lines 196-198 of src/app.py: `days_until_weekend = 5 - today.weekday()`,
then `+= 7` when the result is not positive. -/
def days_until_weekend (w : Int) : Int :=
  let d := 5 - w
  if d ≤ 0 then d + 7 else d

/-- Modelled from the spec and the external `datetime` library:
`strftime("%Y-%m-%d")` rendered as an injective encoding of the abstract day
index.  The claims depend only on which day is stored, not on the concrete
date string. -/
def formatYMD (day : Nat) : String := toString day

/-- The three date-label texts of line 186 of src/app.py. -/
def dateCommands : List String := ["今日のイベント", "明日のイベント", "今週末のイベント"]

/-- Lines 190-199 of src/app.py: the concrete day selected for each
date-label text ("today's events", "tomorrow's events", "this weekend's
events"). -/
def computeSelectedDate (text : String) (today : Nat) : Nat :=
  if text = "今日のイベント" then today
  else if text = "明日のイベント" then today + 1
  else today + (days_until_weekend ((pythonWeekday today : Nat) : Int)).toNat

/-- The reply sent by `handle_text_message`: the date-choice buttons, the
"now send your location" prompt (carrying the selected date string), or the
verbatim echo. -/
inductive TextReply where
  | dateButtons
  | locationPrompt (selected : String)
  | echo (t : String)
deriving Repr, DecidableEq

/-- `handle_text_message` of src/app.py (lines 166-215), as a function of the
current day, the session map, the sender and the message text; returns the
new session map and the reply. -/
def handle_text_message (today : Nat) (sessions : Sessions)
    (userId text : String) : Sessions × TextReply :=
  if text = "イベント検索" then (sessions, .dateButtons)
  else if text ∈ dateCommands then
    let selected := formatYMD (computeSelectedDate text today)
    (setSession sessions userId selected, .locationPrompt selected)
  else (sessions, .echo text)

/-- The reply sent by `handle_location_message`: the instructional message
(no session), a carousel (one column per event: truncated title and link
URI), or the "no events found" text with date and coordinates. -/
inductive LocationReply where
  | instruct
  | carousel (columns : List (String × Option String))
  | noEvents (date : String) (lat lng : Int)
deriving Repr, DecidableEq

/-- `handle_location_message` of src/app.py (lines 218-262): with no session
entry, reply with the instructional message and change nothing; otherwise
scrape, delete the entry, and reply with a carousel (title truncated to 40
characters, the record's `link_url` as the action URI) or the "no events
found" message. -/
def handle_location_message (sessions : Sessions) (userId : String)
    (lat lng : Int) (outcome : FetchOutcome) : Sessions × LocationReply :=
  match sessions userId with
  | none => (sessions, .instruct)
  | some selected_date =>
    let events := scrape_walkerplus lat lng selected_date outcome
    let reply : LocationReply :=
      if events.isEmpty then .noEvents selected_date lat lng
      else .carousel (events.map (fun r => (r.title.take 40, r.link_url)))
    (eraseSession sessions userId, reply)

/-- A well-formed event element like the ones in the repository's test HTML:
an `h3` title, an `img` with a relative `src`, an `a` with a relative
`href`. -/
def sampleEvent1 : Node :=
  .elem "div" [("class", "event-item")]
    [.elem "h3" [] [.text "春の桜まつり"],
     .elem "img" [("src", "/images/event1.jpg")] [],
     .elem "a" [("href", "/event/spring-sakura")] []]

/-- A document containing one well-formed event element. -/
def sampleDoc : Node := .elem "html" [] [.elem "body" [] [sampleEvent1]]

/-- An event element with no `h3`/`h2`/`.event-title` descendant (so the title
falls back to the default) but with a link. -/
def defaultTitleElement : Node :=
  .elem "div" [("class", "event-item")]
    [.elem "a" [("href", "/event/mystery")] []]

/-- A document containing only `defaultTitleElement`. -/
def defaultTitleDoc : Node := .elem "html" [] [.elem "body" [] [defaultTitleElement]]

/-- An event element whose `img` tag carries neither `src` nor `data-src`, so
`img.get("src") or img.get("data-src")` evaluates to Python `None`. -/
def noneImageElement : Node :=
  .elem "div" [("class", "event-item")]
    [.elem "h3" [] [.text "アート展覧会"],
     .elem "img" [("alt", "poster")] [],
     .elem "a" [("href", "http://example.com/x")] []]

/-- A document containing only `noneImageElement`. -/
def noneImageDoc : Node := .elem "html" [] [.elem "body" [] [noneImageElement]]

/-- An element whose only title-like descendant is an `h2`. -/
def h2OnlyElement : Node :=
  .elem "div" [("class", "event-item")] [.elem "h2" [] [.text " 展覧会 "]]

/-- The record the scraper extracts from `sampleEvent1`. -/
def sampleRecord : EventRecord :=
  { title := "春の桜まつり",
    image_url := some "https://www.walkerplus.com/images/event1.jpg",
    link_url := some "https://www.walkerplus.com/event/spring-sakura" }

/-- The accumulation loop is an accumulator-passing `filterMap`. -/
theorem extractLoop_eq (l : List Node) (acc : List EventRecord) :
    extractLoop l acc = acc ++ l.filterMap processElement := by
  induction l generalizing acc with
  | nil => simp [extractLoop]
  | cons e rest ih =>
    cases h : processElement e with
    | some r => simp [extractLoop, h, ih, List.filterMap_cons_some h]
    | none => simp [extractLoop, h, ih, List.filterMap_cons_none h]

/-- The scraper's per-document extraction is `filterMap` over the first five
selected elements. -/
theorem extractEvents_eq (doc : Node) :
    extractEvents doc = ((selectEventElements doc).take 5).filterMap processElement := by
  unfold extractEvents
  rw [extractLoop_eq]
  simp

/-- Anatomy of a kept record: its fields are the extracted title, image URL
and link URL, and both the title and the link URL are Python-truthy. -/
theorem processElement_some {e : Node} {r : EventRecord}
    (h : processElement e = some r) :
    r.title = titleOf e ∧ r.image_url = imageUrlOf e ∧ r.link_url = linkUrlOf e ∧
    pyTruthyStr (titleOf e) = true ∧ pyTruthy (linkUrlOf e) = true := by
  unfold processElement at h
  split at h
  case isTrue hc =>
    obtain ⟨h1, h2⟩ := Bool.and_eq_true_iff.mp hc
    cases h
    exact ⟨rfl, rfl, rfl, h1, h2⟩
  case isFalse hc => cases h

/-- C1 counterexample: an element with no title-like descendant gets the
absent-default title "タイトル不明" ("unknown title"), which is a non-empty and
hence Python-truthy string, so with a link present the record IS included —
the claim says it is dropped. -/
theorem c1_default_title_with_link_is_kept :
    extractEvents defaultTitleDoc =
      [{ title := "タイトル不明", image_url := some "",
         link_url := some "https://www.walkerplus.com/event/mystery" }] := by
  decide

/-- C1 (amended): a parsed element's record is included in the returned list
exactly when its title is a non-empty string and its link URL is truthy
(present and non-empty); the absent-default title is itself non-empty, so an
element with the default title and a link is kept. -/
theorem c1_record_kept_iff_truthy_title_and_link (e : Node) :
    ((processElement e).isSome = (pyTruthyStr (titleOf e) && pyTruthy (linkUrlOf e))) ∧
    (titleOf e = "タイトル不明" → pyTruthy (linkUrlOf e) = true →
      (processElement e).isSome = true) := by
  constructor
  · unfold processElement
    split
    case isTrue hc => simp [hc]
    case isFalse hc => simp only [Bool.not_eq_true] at hc; simp [hc]
  · intro ht hl
    unfold processElement
    rw [ht]
    simp [pyTruthyStr, hl]

/-- C1 witness: the default-title element with a link is kept. -/
theorem c1_record_kept_witness :
    (processElement defaultTitleElement).isSome = true :=
  (c1_record_kept_iff_truthy_title_and_link defaultTitleElement).2 (by decide) (by decide)

/-- C2 counterexample: with today = day 0 (a Monday; weekday 0), the weekend
date-label writes day 5 to the session.  Day 5 has weekday 5 (Saturday), not
weekday 4 (Friday): the code computes the next Saturday (5 - weekday, rolled
by 7 when not positive), not the next Friday as claimed. -/
theorem c2_weekend_writes_saturday_not_friday :
    ((handle_text_message 0 (fun _ => none) "user1" "今週末のイベント").1 "user1"
        = some (formatYMD 5)) ∧
    ((handle_text_message 0 (fun _ => none) "user1" "今週末のイベント").1 "user1"
        ≠ some (formatYMD 4)) ∧
    pythonWeekday 0 = 0 ∧ pythonWeekday 5 = 5 ∧ pythonWeekday 4 = 4 := by
  decide

/-- C2 (amended): on the weekend date-label the day written to the session is
the nearest strictly-upcoming Saturday (weekday 5): the offset is 5 minus the
current weekday, rolled by one week exactly when the current weekday is at or
after Saturday, and always lies between 1 and 7. -/
theorem c2_weekend_selects_next_saturday (today : Nat) (sessions : Sessions) (u : String) :
    ((handle_text_message today sessions u "今週末のイベント").1 u
        = some (formatYMD
            (today + (days_until_weekend ((pythonWeekday today : Nat) : Int)).toNat))) ∧
    pythonWeekday
        (today + (days_until_weekend ((pythonWeekday today : Nat) : Int)).toNat) = 5 ∧
    1 ≤ (days_until_weekend ((pythonWeekday today : Nat) : Int)).toNat ∧
    (days_until_weekend ((pythonWeekday today : Nat) : Int)).toNat ≤ 7 ∧
    (pythonWeekday today < 5 →
      (days_until_weekend ((pythonWeekday today : Nat) : Int)).toNat
        = 5 - pythonWeekday today) ∧
    (5 ≤ pythonWeekday today →
      (days_until_weekend ((pythonWeekday today : Nat) : Int)).toNat
        = 12 - pythonWeekday today) := by
  have hs : (handle_text_message today sessions u "今週末のイベント").1 u
      = some (formatYMD (computeSelectedDate "今週末のイベント" today)) := by
    simp [handle_text_message, dateCommands, setSession]
  have hcs : computeSelectedDate "今週末のイベント" today
      = today + (days_until_weekend ((pythonWeekday today : Nat) : Int)).toNat := rfl
  refine ⟨by rw [hs, hcs], ?_, ?_, ?_, ?_, ?_⟩ <;>
    simp only [pythonWeekday, days_until_weekend] <;>
    intros <;> split_ifs with h <;> omega

/-- C2 witness: with today = day 3 (a Thursday), the offset is 5 - 3 = 2 and
the session receives day 5. -/
theorem c2_weekend_selects_next_saturday_witness :
    ((handle_text_message 3 (fun _ => none) "u" "今週末のイベント").1 "u"
        = some (formatYMD
            (3 + (days_until_weekend ((pythonWeekday 3 : Nat) : Int)).toNat))) ∧
    (days_until_weekend ((pythonWeekday 3 : Nat) : Int)).toNat = 5 - pythonWeekday 3 := by
  have h := c2_weekend_selects_next_saturday 3 (fun _ => none) "u"
  exact ⟨h.1, h.2.2.2.2.1 (by decide)⟩

/-- C3 counterexample: `raise_for_status` raises only for 4xx/5xx, so a final
non-2xx status outside that range (here 301, e.g. a redirect without a
Location header) is parsed like a success and can yield a non-empty list —
the claim says every non-2xx status yields the empty list. -/
theorem c3_non_2xx_not_always_empty :
    scrape_walkerplus 0 0 "2024-01-15" (.response 301 sampleDoc) ≠ [] := by
  decide

/-- C3 (amended): the scraper is a total function returning a list; a network
failure, or a final HTTP status in 400..599 (exactly the statuses
`raise_for_status` raises for), yields the empty list. -/
theorem c3_failure_yields_empty (lat lng : Int) (date_str : String) :
    (scrape_walkerplus lat lng date_str .requestFailure = []) ∧
    (∀ status doc, 400 ≤ status → status < 600 →
      scrape_walkerplus lat lng date_str (.response status doc) = []) := by
  refine ⟨rfl, ?_⟩
  intro status doc h1 h2
  simp [scrape_walkerplus, raiseForStatusRaises, h1, h2]

/-- C3 witness: a network failure and a 404 response both yield the empty
list, even on a body full of events. -/
theorem c3_failure_yields_empty_witness :
    (scrape_walkerplus 35 139 "2024-01-15" .requestFailure = []) ∧
    (scrape_walkerplus 35 139 "2024-01-15" (.response 404 sampleDoc) = []) := by
  have h := c3_failure_yields_empty 35 139 "2024-01-15"
  exact ⟨h.1, h.2 404 sampleDoc (by decide) (by decide)⟩

/-- C4: whatever selector strategy wins and however many elements it matches,
the returned list has at most 5 records, and it is a sublist of the full
document-order extraction (so records appear in document order of their
source elements). -/
theorem c4_at_most_five_in_document_order (doc : Node) :
    (extractEvents doc).length ≤ 5 ∧
    List.Sublist (extractEvents doc) ((selectEventElements doc).filterMap processElement) := by
  rw [extractEvents_eq]
  constructor
  · exact le_trans (List.length_filterMap_le _ _) (List.length_take_le _ _)
  · exact List.Sublist.filterMap _ (List.take_sublist _ _)

/-- C5: a non-empty extracted URL that does not start with "http" is prefixed
with the site's domain; one that does start with "http" is unchanged. -/
theorem c5_relative_url_prefixed (s : String) (h : s ≠ "") :
    (pyStartsWith s "http" = false →
      absolutize (some s) = some ("https://www.walkerplus.com" ++ s)) ∧
    (pyStartsWith s "http" = true → absolutize (some s) = some s) := by
  have ht : pyTruthyStr s = true := by simp [pyTruthyStr, h]
  constructor <;> intro hsw <;> simp [absolutize, ht, hsw]

/-- C5 witness: a relative image path is prefixed, an absolute URL is
unchanged. -/
theorem c5_relative_url_prefixed_witness :
    (absolutize (some "/images/event1.jpg")
        = some ("https://www.walkerplus.com" ++ "/images/event1.jpg")) ∧
    (absolutize (some "https://www.walkerplus.com/e")
        = some "https://www.walkerplus.com/e") := by
  have h1 := c5_relative_url_prefixed "/images/event1.jpg" (by decide)
  have h2 := c5_relative_url_prefixed "https://www.walkerplus.com/e" (by decide)
  exact ⟨h1.1 (by decide), h2.2 (by decide)⟩

/-- C6 counterexample: an element whose `img` tag has neither `src` nor
`data-src` produces a record whose `image_url` is Python `None` (not a
string), refuting "never a null/None value". -/
theorem c6_record_with_none_image_url :
    extractEvents noneImageDoc =
      [{ title := "アート展覧会", image_url := none,
         link_url := some "http://example.com/x" }] := by
  decide

/-- C6 (amended): every returned record's title is the extracted title string
and its link URL is a non-empty string; its image URL is whatever the
extraction produced — a string, possibly empty, or Python `None` when an
`img` tag is present without a usable `src`/`data-src`. -/
theorem c6_record_shape (e : Node) (r : EventRecord)
    (h : processElement e = some r) :
    r.title = titleOf e ∧ r.image_url = imageUrlOf e ∧
    pyTruthy r.link_url = true := by
  obtain ⟨h1, h2, h3, _, h5⟩ := processElement_some h
  exact ⟨h1, h2, by rw [h3]; exact h5⟩

/-- C6 witness: the shape facts at the well-formed sample element. -/
theorem c6_record_shape_witness :
    sampleRecord.title = titleOf sampleEvent1 ∧
    sampleRecord.image_url = imageUrlOf sampleEvent1 ∧
    pyTruthy sampleRecord.link_url = true :=
  c6_record_shape sampleEvent1 sampleRecord (by decide)

/-- C7: the extracted title is the stripped text of the first hit among
`find("h3")`, `find("h2")` and `find(".event-title")`, in that order, and is
the default "タイトル不明" when all three miss. -/
theorem c7_title_selector_cascade (e : Node) :
    (∀ t, findTag "h3" e = some t → titleOf e = getTextStrip t) ∧
    (findTag "h3" e = none → ∀ t, findTag "h2" e = some t →
      titleOf e = getTextStrip t) ∧
    (findTag "h3" e = none → findTag "h2" e = none →
      ∀ t, findTag ".event-title" e = some t → titleOf e = getTextStrip t) ∧
    (findTag "h3" e = none → findTag "h2" e = none →
      findTag ".event-title" e = none → titleOf e = "タイトル不明") := by
  refine ⟨?_, ?_, ?_, ?_⟩
  · intro t h; simp [titleOf, titleElementOf, h, pyOrElem]
  · intro h3 t h2; simp [titleOf, titleElementOf, h3, h2, pyOrElem]
  · intro h3 h2 t he; simp [titleOf, titleElementOf, h3, h2, he, pyOrElem]
  · intro h3 h2 he; simp [titleOf, titleElementOf, h3, h2, he, pyOrElem]

/-- C7 witness: on an element whose only title-like descendant is an `h2`,
the title is that element's stripped text. -/
theorem c7_title_selector_cascade_witness :
    titleOf h2OnlyElement = getTextStrip (.elem "h2" [] [.text " 展覧会 "]) :=
  (c7_title_selector_cascade h2OnlyElement).2.1 rfl _ rfl

/-- C8: a location message from a user with no session entry replies with the
instructional message and returns the session map unchanged (the same map,
no entry created or deleted), for every session map, user, coordinate pair
and fetch outcome. -/
theorem c8_missing_session_instructs (sessions : Sessions) (u : String)
    (lat lng : Int) (o : FetchOutcome) (h : sessions u = none) :
    handle_location_message sessions u lat lng o
      = (sessions, LocationReply.instruct) := by
  unfold handle_location_message
  rw [h]

/-- C8 witness: the empty session map is returned untouched together with the
instructional reply. -/
theorem c8_missing_session_instructs_witness :
    handle_location_message (fun _ => none) "user1" 35 139 FetchOutcome.requestFailure
      = ((fun _ => none : Sessions), LocationReply.instruct) :=
  c8_missing_session_instructs (fun _ => none) "user1" 35 139 .requestFailure rfl

/-- C9: a date-selection command writes exactly the computed date string for
the sender — overwriting whatever was there — and leaves every other user's
entry unchanged; the map structure itself guarantees at most one pending date
per user. -/
theorem c9_date_command_overwrites_session (today : Nat) (sessions : Sessions)
    (u text : String) (h : text ∈ dateCommands) :
    ((handle_text_message today sessions u text).1 u
        = some (formatYMD (computeSelectedDate text today))) ∧
    (∀ v, v ≠ u → (handle_text_message today sessions u text).1 v = sessions v) := by
  simp only [dateCommands, List.mem_cons, List.not_mem_nil, or_false] at h
  rcases h with h | h | h <;> subst h <;>
    exact ⟨by simp [handle_text_message, dateCommands, setSession],
      fun v hv => by simp [handle_text_message, dateCommands, setSession, hv]⟩

/-- C9 witness: a pre-existing entry for the sender is overwritten with the
computed date, and another user's entry survives unchanged. -/
theorem c9_date_command_overwrites_session_witness :
    ((handle_text_message 0 (fun v => if v = "u" then some "old" else some "keep")
        "u" "今日のイベント").1 "u" = some (formatYMD (computeSelectedDate "今日のイベント" 0))) ∧
    ((handle_text_message 0 (fun v => if v = "u" then some "old" else some "keep")
        "u" "今日のイベント").1 "w" = some "keep") := by
  have h := c9_date_command_overwrites_session 0
    (fun v => if v = "u" then some "old" else some "keep") "u" "今日のイベント" (by decide)
  refine ⟨h.1, ?_⟩
  have h2 := h.2 "w" (by decide)
  simpa using h2

/-- C10: every record in the returned list has a Python-truthy (present and
non-empty) link URL: an element with no anchor, or whose first anchor lacks a
truthy `href`, is never appended, so the carousel construction in
`handle_location_message` always has a URI for its action. -/
theorem c10_returned_record_link_truthy (doc : Node) (r : EventRecord)
    (h : r ∈ extractEvents doc) : pyTruthy r.link_url = true := by
  rw [extractEvents_eq] at h
  obtain ⟨e, _, hpe⟩ := List.mem_filterMap.mp h
  obtain ⟨_, _, h3, _, h5⟩ := processElement_some hpe
  rw [h3]
  exact h5

/-- C10 witness: the record extracted from the sample document has a truthy
link URL. -/
theorem c10_returned_record_link_truthy_witness :
    pyTruthy sampleRecord.link_url = true :=
  c10_returned_record_link_truthy sampleDoc sampleRecord (by decide)

end App
